import Mathlib

/-!
Shallow embedding of the MovingMemories workflow: the zustand store
(`memoryStore`), the upload validation utilities (`imageProcessing.ts`),
the provider clients (`veoService.ts`, `replicateService.ts`,
`geminiService.ts`) and the step-orchestrator control flow of the
Enhance and Generate components.  External HTTP calls are modelled as
oracles (`Except`/outcome parameters); localStorage reads are modelled
as `Option String` parameters, one per read site.
-/

/-- JavaScript truthiness of a `string | null | undefined` value:
`null`/`undefined` and the empty string are falsy. -/
def jsTruthyOpt : Option String → Bool
  | none => false
  | some s => !s.isEmpty

/-- JavaScript `a || b` on `string | null` values (used for
`localStorage.getItem('VEO_API_KEY') || localStorage.getItem('GEMINI_API_KEY')`). -/
def jsOrOpt (a b : Option String) : Option String :=
  if jsTruthyOpt a then a else b

/-- JavaScript `s || dflt` on a plain string (empty string is falsy). -/
def jsOrStr (s dflt : String) : String :=
  if s.isEmpty then dflt else s

/-- Char-list prefix test (building block for substring search). -/
def startsWithCL : List Char → List Char → Bool
  | [], _ => true
  | _ :: _, [] => false
  | a :: as, b :: bs => a == b && startsWithCL as bs

/-- Char-list substring test. -/
def infixCL (pat : List Char) : List Char → Bool
  | [] => startsWithCL pat []
  | c :: rest => startsWithCL pat (c :: rest) || infixCL pat rest

/-- JavaScript `s.includes(pat)`: substring containment. -/
def jsIncludes (s pat : String) : Bool :=
  infixCL pat.toList s.toList

/-- JavaScript `s.trim()`: strip leading and trailing whitespace. -/
def jsTrim (s : String) : String :=
  String.mk (((s.toList.dropWhile Char.isWhitespace).reverse.dropWhile
    Char.isWhitespace).reverse)

/-! ## Data model (`types/index.ts`) -/

/-- The five workflow steps (`ProcessingStep` in `types/index.ts`). -/
inductive ProcessingStep where
  | upload
  | enhance
  | prompt
  | generate
  | complete
deriving DecidableEq, Repr

/-- An uploaded `File`: the fields the workflow logic reads
(`file.type` and `file.size`). -/
structure FileDesc where
  type : String
  size : Nat
deriving DecidableEq, Repr

/-- The store state (`MemoryState` in `types/index.ts`).  `progress`
is a JS number, modelled as a rational. -/
structure MemoryState where
  currentStep : ProcessingStep
  originalImage : Option FileDesc
  originalImageUrl : Option String
  originalImageDataUrl : Option String
  enhancedImageUrl : Option String
  enhancedImageCaption : Option String
  videoUrl : Option String
  userNote : String
  motionPrompt : String
  isProcessing : Bool
  progress : ℚ
  error : Option String
  apiKey : Option String
  processingStartTime : Option Nat
  estimatedTimeRemaining : Option Nat
deriving DecidableEq, Repr

/-- `initialState` of `memoryStore.ts`. -/
def initialState : MemoryState where
  currentStep := .upload
  originalImage := none
  originalImageUrl := none
  originalImageDataUrl := none
  enhancedImageUrl := none
  enhancedImageCaption := none
  videoUrl := none
  userNote := ""
  motionPrompt := ""
  isProcessing := false
  progress := 0
  error := none
  apiKey := none
  processingStartTime := none
  estimatedTimeRemaining := none

/-! ## Store actions (`store/memoryStore.ts`) -/

/-- `setCurrentStep`: moves to `step` and clears the error. -/
def setCurrentStep (s : MemoryState) (step : ProcessingStep) : MemoryState :=
  { s with currentStep := step, error := none }

/-- `setOriginalImage(file, url)`: stores the image and clears all
downstream state, moving to the `enhance` step, in one `set` call. -/
def setOriginalImage (s : MemoryState) (file : FileDesc) (url : String) : MemoryState :=
  { s with
    originalImage := some file
    originalImageUrl := some url
    originalImageDataUrl := some url
    enhancedImageUrl := none
    enhancedImageCaption := none
    videoUrl := none
    motionPrompt := ""
    userNote := ""
    error := none
    currentStep := .enhance }

/-- `setEnhancedImage(url, caption?)`: `caption || null` (an empty or
absent caption is stored as `null`), moving to `generate`. -/
def setEnhancedImage (s : MemoryState) (url : String) (caption : Option String) : MemoryState :=
  { s with
    enhancedImageUrl := some url
    enhancedImageCaption :=
      match caption with
      | some c => if c.isEmpty then none else some c
      | none => none
    currentStep := .generate }

/-- `setVideoUrl(url)`: stores the video handle and completes. -/
def setVideoUrl (s : MemoryState) (url : String) : MemoryState :=
  { s with
    videoUrl := some url
    currentStep := .complete
    isProcessing := false
    progress := 100 }

/-- `setUserNote`. -/
def setUserNote (s : MemoryState) (note : String) : MemoryState :=
  { s with userNote := note }

/-- `setMotionPrompt`. -/
def setMotionPrompt (s : MemoryState) (p : String) : MemoryState :=
  { s with motionPrompt := p }

/-- `setProgress(progress)`: clamps to `[0, 100]` via
`Math.max(0, Math.min(100, progress))`. -/
def setProgress (s : MemoryState) (p : ℚ) : MemoryState :=
  { s with progress := max 0 (min 100 p) }

/-- URLs revoked by `resetWorkflow`/`clearMedia`: `originalImageUrl`
and `videoUrl` when they start with `blob:`. -/
def blobRevocations (s : MemoryState) : List String :=
  (match s.originalImageUrl with
   | some u => if u.startsWith "blob:" then [u] else []
   | none => []) ++
  (match s.videoUrl with
   | some u => if u.startsWith "blob:" then [u] else []
   | none => [])

/-- `resetWorkflow`: revokes blob URLs, then resets to `initialState`
preserving `apiKey`.  Returns the new state and the revoked URLs. -/
def resetWorkflow (s : MemoryState) : MemoryState × List String :=
  ({ initialState with apiKey := s.apiKey }, blobRevocations s)

/-- `canProceedToStep(step)`: gate for entering each step.  Note the
source checks `!!state.motionPrompt` for `generate` (JS truthiness:
non-empty string) and `!!state.enhancedImageUrl` for `prompt`. -/
def canProceedToStep (s : MemoryState) (step : ProcessingStep) : Bool :=
  match step with
  | .upload => true
  | .enhance => s.originalImage.isSome
  | .prompt => jsTruthyOpt s.enhancedImageUrl
  | .generate => !s.motionPrompt.isEmpty
  | .complete => jsTruthyOpt s.videoUrl

/-! ## Upload validation (`utils/imageProcessing.ts`) -/

/-- Result of `validateImageFile`. -/
structure ValidationResult where
  isValid : Bool
  error : Option String
deriving DecidableEq, Repr

/-- The allowed MIME types (`supportedTypes` in `validateImageFile`). -/
def supportedTypes : List String := ["image/jpeg", "image/png", "image/webp"]

/-- `maxSize` in `validateImageFile`: 10 MB. -/
def maxFileSize : Nat := 10 * 1024 * 1024

/-- `validateImageFile(file)`. -/
def validateImageFile (file : FileDesc) : ValidationResult :=
  if !(supportedTypes.contains file.type) then
    { isValid := false
      error := some "Unsupported file type. Please use JPEG, PNG, or WebP images." }
  else if file.size > maxFileSize then
    { isValid := false
      error := some "File is too large. Please use an image under 10MB." }
  else
    { isValid := true, error := none }

/-- `UploadComponent.handleFile`: validate, then (on success) process
the image and commit it to the store via `setOriginalImage`.  The
async `processImageForGemini` call is an oracle producing the data URL
or throwing.  Returns the store after the call and the component-local
`uploadError`. -/
def handleFile (store : MemoryState) (file : FileDesc)
    (processResult : Except String String) : MemoryState × Option String :=
  let v := validateImageFile file
  if !v.isValid then
    (store, some (jsOrStr (v.error.getD "") "Invalid file"))
  else
    match processResult with
    | .ok dataUrl => (setOriginalImage store file dataUrl, none)
    | .error msg => (store, some msg)

/-! ## Gemini image enhancement (`services/geminiService.ts`) -/

/-- `inlineData` of a Gemini response part. -/
structure InlineData where
  mimeType : String
  data : String
deriving DecidableEq, Repr

/-- A Gemini response candidate part (`CandidatePart` in
`geminiService.ts`). -/
structure CandidatePart where
  text : Option String
  inlineData : Option InlineData
deriving DecidableEq, Repr

/-- `GeminiImageResponse` of `types/index.ts`. -/
structure GeminiImageResponse where
  images : List String
  caption : String
deriving DecidableEq, Repr

/-- One iteration of the part-processing loop in
`GeminiService.enhanceImage`: accumulate caption text (`if (part.text)`,
JS truthiness) and inline images (`inline && inline.data && inline.mimeType`). -/
def processPart (acc : List String × String) (part : CandidatePart) : List String × String :=
  let caption :=
    match part.text with
    | some t => if t.isEmpty then acc.2 else acc.2 ++ t ++ "\n"
    | none => acc.2
  let images :=
    match part.inlineData with
    | some inline =>
        if !inline.data.isEmpty && !inline.mimeType.isEmpty then
          acc.1 ++ ["data:" ++ inline.mimeType ++ ";base64," ++ inline.data]
        else acc.1
    | none => acc.1
  (images, caption)

/-- The post-response processing of `GeminiService.enhanceImage`: collect
images and caption from the parts; if no image came back, substitute the
original input as a data URL and, if the caption is empty, the generic
caption.  The returned caption is `caption.trim()`. -/
def processEnhanceResponse (base64Image mimeType : String)
    (parts : List CandidatePart) : GeminiImageResponse :=
  let acc := parts.foldl processPart ([], "")
  let images := acc.1
  let caption := acc.2
  if images.isEmpty then
    let enhancedUrl := "data:" ++ mimeType ++ ";base64," ++ base64Image
    let caption2 := if caption.isEmpty then "Image processed successfully" else caption
    { images := [enhancedUrl], caption := jsTrim caption2 }
  else
    { images := images, caption := jsTrim caption }

/-- The catch-clause message mapping of `GeminiService.enhanceImage`. -/
def mapGeminiEnhanceError (msg : String) : String :=
  if jsIncludes msg "quota" then
    "API quota exceeded. Please check your Gemini API usage limits."
  else if jsIncludes msg "safety" then
    "Image was rejected for safety reasons. Please try a different image."
  else if jsIncludes msg "key" then
    "Invalid API key. Please check your Gemini API key."
  else
    "Failed to enhance image. Please try again."

/-- `GeminiService.enhanceImage(base64Image, mimeType)`: the
`generateContent` HTTP call is an oracle returning the candidate parts
or throwing. -/
def enhanceImage (base64Image mimeType : String)
    (apiResult : Except String (List CandidatePart)) :
    Except String GeminiImageResponse :=
  match apiResult with
  | .ok parts => .ok (processEnhanceResponse base64Image mimeType parts)
  | .error msg => .error (mapGeminiEnhanceError msg)

/-! ## Enhance step orchestration (`EnhanceComponent.startEnhancement`) -/

/-- Result of `ReplicateService.enhanceImage`. -/
structure ReplicateEnhanceResult where
  imageUrl : String
  caption : Option String
deriving DecidableEq, Repr

/-- Provider calls issued by the Enhance step, in order. -/
inductive EnhEvent where
  | replicateCall
  | geminiCall
deriving DecidableEq, Repr

/-- Outcome of one `startEnhancement` run: success commits the enhanced
image and caption, failure sets the step error; `noop` is the early
return when no original image exists. -/
inductive EnhOutcome where
  | success (url caption : String)
  | failure (msg : String)
  | noop
deriving DecidableEq, Repr

/-- Environment of one `startEnhancement` run: the
`REPLICATE_API_TOKEN` localStorage read and the two provider-call
oracles (caption/images as the services would return them). -/
structure EnhEnv where
  replicateToken : Option String
  replicateResult : Except String ReplicateEnhanceResult
  geminiResult : Except String GeminiImageResponse
deriving Repr

/-- The `if (enhancedImageUrl)` check at the end of the `try` block:
a falsy (absent or empty) url throws `No enhanced image was generated`. -/
def enhFinish (url : Option String) (caption : String) (evs : List EnhEvent) :
    EnhOutcome × List EnhEvent :=
  match url with
  | some u => if u.isEmpty then (.failure "No enhanced image was generated", evs)
              else (.success u caption, evs)
  | none => (.failure "No enhanced image was generated", evs)

/-- The Gemini sub-path of `startEnhancement`: `geminiResult.images[0]`
with the caption from the response; a thrown error reaches the outer
catch. -/
def enhGeminiPath (g : Except String GeminiImageResponse)
    (evs : List EnhEvent) : EnhOutcome × List EnhEvent :=
  match g with
  | .ok r => enhFinish r.images.head? r.caption evs
  | .error m => (.failure m, evs)

/-- `EnhanceComponent.startEnhancement`: with a (truthy) Replicate
token, attempt Replicate enhancement first, falling back to Gemini on
failure; without a token, call Gemini directly.  The replicate caption
defaults via `replicateResult.caption || 'Enhanced with AI'`. -/
def startEnhancement (originalImageDataUrl : Option String) (env : EnhEnv) :
    EnhOutcome × List EnhEvent :=
  if !(jsTruthyOpt originalImageDataUrl) then (.noop, [])
  else if jsTruthyOpt env.replicateToken then
    match env.replicateResult with
    | .ok r =>
        let caption := jsOrStr (r.caption.getD "") "Enhanced with AI"
        enhFinish (some r.imageUrl) caption [.replicateCall]
    | .error _ => enhGeminiPath env.geminiResult [.replicateCall, .geminiCall]
  else
    enhGeminiPath env.geminiResult [.geminiCall]

/-! ## Progress tickers -/

/-- The Enhance step's simulated progress tick:
`setEnhanceProgress(prev => Math.min(prev + 10, 90))`. -/
def enhanceTick (prev : ℚ) : ℚ := min (prev + 10) 90

/-- The ease-in-out curve of `GenerateComponent.startGentleProgress`. -/
def easeInOut (pc : ℚ) : ℚ :=
  if pc < 1/2 then 2 * pc * pc
  else 1 - (-2 * pc + 2) ^ 2 / 2

/-- The progress value set by one tick of
`GenerateComponent.startGentleProgress` at a given elapsed time (ms):
`Math.min(90, startProgress + (endProgress - startProgress) * eased)`
with start 10, end 90 and duration 50000 ms. -/
def genTick (elapsed : ℚ) : ℚ :=
  let percentComplete := min (elapsed / 50000) 1
  let eased := easeInOut percentComplete
  min 90 (10 + (90 - 10) * eased)

/-! ## VEO video generation (`services/veoService.ts`) -/

/-- The request body `input` built by `generateVideoWithReplicate`. -/
structure ReplicateRequest where
  prompt : String
  duration : Nat
  resolution : String
  aspect_ratio : String
  image : Option String
  fps : Nat
  camera_fixed : Bool
deriving DecidableEq, Repr

/-- Outcome of the Replicate prediction HTTP exchange: a thrown fetch
error, a non-ok HTTP response, or a parsed body whose `output` field
may be absent. -/
inductive ReplicateOutcome where
  | netErr (msg : String)
  | httpErr (status : Nat) (text : String)
  | ok (output : Option String)
deriving DecidableEq, Repr

/-- `VeoService.generateVideoWithReplicate(prompt, imageUrl, duration,
resolution, aspectRatio)`: reads the token from localStorage (the
`token` parameter models that read) and throws on `if (!token)` — JS
falsy, so a null or empty token throws; otherwise it builds the
request body (`image: imageUrl || null`, `fps: 24`,
`camera_fixed: false`) and issues the prediction call (`outcome`
oracle).  Returns the result and the request that was issued, if
any. -/
def generateVideoWithReplicate (token : Option String)
    (outcome : ReplicateOutcome) (prompt : String) (imageUrl : Option String)
    (duration : Nat) (resolution aspectRatio : String) :
    Except String String × Option ReplicateRequest :=
  if !(jsTruthyOpt token) then
    (.error "Missing Replicate API token. Set REPLICATE_API_TOKEN in localStorage.",
     none)
  else
    let req : ReplicateRequest :=
      { prompt := prompt
        duration := duration
        resolution := resolution
        aspect_ratio := aspectRatio
        image := if jsTruthyOpt imageUrl then imageUrl else none
        fps := 24
        camera_fixed := false }
    match outcome with
    | .netErr m => (.error m, some req)
    | .httpErr status text =>
        (.error ("Replicate failed (" ++ toString status ++ "): " ++ text), some req)
    | .ok none => (.error "Replicate did not return an output URL.", some req)
    | .ok (some url) => (.ok url, some req)

/-! ## Generate step orchestration (`GenerateComponent.startGeneration`) -/

/-- Store fields read by `startGeneration`. -/
structure GenState where
  enhancedImageUrl : Option String
  motionPrompt : String
  userNote : String
deriving DecidableEq, Repr

/-- Provider calls issued by the Generate step, in order. -/
inductive GenEvent where
  | promptCall (image : String) (note : Option String)
  | replicateCall (req : ReplicateRequest)
  | veoCall (image : String) (prompt : String)
deriving DecidableEq, Repr

/-- Outcome of one `startGeneration` run: success commits the video
URL and completes; failure sets the component error. -/
inductive GenOutcome where
  | success (videoUrl : String)
  | failure (msg : String)
deriving DecidableEq, Repr

/-- Environment of one `startGeneration` run: the localStorage reads
(one per read site: `REPLICATE_API_TOKEN` at the provider-selection
point and again in the catch handler; `VEO_API_KEY` and
`GEMINI_API_KEY`) and the provider-call oracles. -/
structure GenEnv where
  tokenAtStart : Option String
  tokenAtCatch : Option String
  veoApiKey : Option String
  geminiApiKey : Option String
  promptResult : Except String String
  replicateFirst : ReplicateOutcome
  replicateFallback : ReplicateOutcome
  veoResult : Except String String
deriving Repr

/-- The fallback motion prompt substituted when
`generateVideoPromptFromImage` throws. -/
def fallbackPrompt : String := "A gentle, cinematic motion around this cherished memory."

/-- The prompt phase of `startGeneration`: when the store's motion
prompt is falsy or trim-empty, request one from Gemini
(`userNote || undefined` as the note), substituting `fallbackPrompt`
on failure.  Returns the prompt used and the events so far. -/
def promptPhase (st : GenState) (env : GenEnv) : String × List GenEvent :=
  if st.motionPrompt.isEmpty || (jsTrim st.motionPrompt).isEmpty then
    let image := st.enhancedImageUrl.getD ""
    let note := if st.userNote.isEmpty then none else some st.userNote
    match env.promptResult with
    | .ok p => (p, [.promptCall image note])
    | .error _ => (fallbackPrompt, [.promptCall image note])
  else
    (st.motionPrompt, [])

/-- The catch handler of `startGeneration`: the source guard is
`if (replicateToken && !message.includes('Replicate'))` — JS truthiness
on the token (null or empty string is falsy) — and on it retries via
Replicate before surfacing the failure; otherwise it surfaces
`message || 'Video generation failed'`. -/
def genCatch (st : GenState) (env : GenEnv) (evs : List GenEvent)
    (prompt msg : String) : GenOutcome × List GenEvent :=
  if jsTruthyOpt env.tokenAtCatch && !(jsIncludes msg "Replicate") then
    let r := generateVideoWithReplicate env.tokenAtCatch env.replicateFallback
      prompt st.enhancedImageUrl 5 "480p" "16:9"
    let evs2 := evs ++ (match r.2 with | some req => [.replicateCall req] | none => [])
    match r.1 with
    | .ok url => (.success url, evs2)
    | .error m => (.failure m, evs2)
  else
    (.failure (jsOrStr msg "Video generation failed"), evs)

/-- The Replicate branch of `startGeneration`'s video phase: call
`generateVideoWithReplicate(prompt, enhancedImageUrl, 5, '480p',
'16:9')` (the service re-reads the token from localStorage, modelled
as the same start-of-run read); a thrown error goes to the catch
handler. -/
def videoPhaseReplicate (st : GenState) (env : GenEnv)
    (prompt : String) (evs : List GenEvent) : GenOutcome × List GenEvent :=
  let r := generateVideoWithReplicate env.tokenAtStart env.replicateFirst
    prompt st.enhancedImageUrl 5 "480p" "16:9"
  let evs2 := evs ++ (match r.2 with | some req => [.replicateCall req] | none => [])
  match r.1 with
  | .ok url => (.success url, evs2)
  | .error m => genCatch st env evs2 prompt m

/-- The VEO branch of `startGeneration`'s video phase: require
`VEO_API_KEY || GEMINI_API_KEY` (throwing `API key not found` into the
catch handler otherwise) and call `generateVideoSimple`. -/
def videoPhaseVeo (st : GenState) (env : GenEnv) (image prompt : String)
    (evs : List GenEvent) : GenOutcome × List GenEvent :=
  let veoApiKey := jsOrOpt env.veoApiKey env.geminiApiKey
  if !(jsTruthyOpt veoApiKey) then
    genCatch st env evs prompt "API key not found. Please set your API key."
  else
    match env.veoResult with
    | .ok url => (.success url, evs ++ [.veoCall image prompt])
    | .error m => genCatch st env (evs ++ [.veoCall image prompt]) prompt m

/-- `GenerateComponent.startGeneration`: guard on the enhanced image,
run the prompt phase, then select the video provider with
`if (replicateToken)` — JS truthiness, so Replicate is taken only for
a non-null, non-empty token, otherwise VEO; all thrown errors go to
`genCatch`. -/
def startGeneration (st : GenState) (env : GenEnv) : GenOutcome × List GenEvent :=
  if !(jsTruthyOpt st.enhancedImageUrl) then
    (.failure "Missing required image for video generation", [])
  else
    let image := st.enhancedImageUrl.getD ""
    let pp := promptPhase st env
    if jsTruthyOpt env.tokenAtStart then
      videoPhaseReplicate st env pp.1 pp.2
    else
      videoPhaseVeo st env image pp.1 pp.2

/-! ## Concrete states and environments used by the witnesses -/

/-- A store state whose only non-initial field is a non-empty motion
prompt: no image of any kind is present. -/
def promptOnlyState : MemoryState := { initialState with motionPrompt := "pan slowly" }

/-- Enhance-step environment with a Replicate token whose Replicate
call fails and whose Gemini call succeeds. -/
def enhEnvA : EnhEnv where
  replicateToken := some "tok"
  replicateResult := .error "Replicate API error: 500"
  geminiResult := .ok { images := ["data:image/png;base64,xyz"], caption := "ok" }

/-- Enhance-step environment without a Replicate token. -/
def enhEnvB : EnhEnv where
  replicateToken := none
  replicateResult := .error "unused"
  geminiResult := .ok { images := ["data:image/png;base64,xyz"], caption := "ok" }

/-- Generate-step store state with an enhanced image and a non-empty
motion prompt. -/
def genStateW : GenState where
  enhancedImageUrl := some "data:image/png;base64,q"
  motionPrompt := "slow pan"
  userNote := ""

/-- Generate-step store state with an enhanced image and an empty
motion prompt. -/
def genStateNoPrompt : GenState where
  enhancedImageUrl := some "data:image/png;base64,q"
  motionPrompt := ""
  userNote := ""

/-- Generate-step environment with a Replicate token present at both
read sites and a successful Replicate call. -/
def genEnvToken : GenEnv where
  tokenAtStart := some "rtok"
  tokenAtCatch := some "rtok"
  veoApiKey := none
  geminiApiKey := none
  promptResult := .ok "a drifting dolly shot"
  replicateFirst := .ok (some "https://replicate.delivery/out.mp4")
  replicateFallback := .ok (some "https://replicate.delivery/out.mp4")
  veoResult := .ok "unused"

/-- Generate-step environment with a Replicate token, a failing prompt
call and a successful Replicate call. -/
def genEnvPromptFail : GenEnv where
  tokenAtStart := some "rtok"
  tokenAtCatch := some "rtok"
  veoApiKey := none
  geminiApiKey := none
  promptResult := .error "ApiError: 400"
  replicateFirst := .ok (some "https://replicate.delivery/out.mp4")
  replicateFallback := .ok (some "https://replicate.delivery/fb.mp4")
  veoResult := .ok "unused"

theorem isEmptyFalseIff (s : String) : s.isEmpty = false ↔ s ≠ "" := by
  rw [Bool.eq_false_iff]
  exact not_congr (String.isEmpty_iff s)

theorem optRevocation_mem (o : Option String) (u : String) :
    (u ∈ (match o with
          | some w => if w.startsWith "blob:" then [w] else []
          | none => ([] : List String))) ↔
      (o = some u ∧ u.startsWith "blob:" = true) := by
  rcases o with _ | a
  · simp
  · show (u ∈ if a.startsWith "blob:" then [a] else []) ↔ _
    constructor
    · intro hu
      by_cases ha : a.startsWith "blob:"
      · rw [if_pos ha] at hu
        have h : u = a := List.mem_singleton.mp hu
        subst h
        exact ⟨rfl, ha⟩
      · rw [if_neg ha] at hu
        exact absurd hu (List.not_mem_nil u)
    · rintro ⟨h, hs⟩
      injection h with h
      subst h
      rw [if_pos hs]
      exact List.mem_singleton.mpr rfl

/-- C7: the store's `setProgress` clamps every argument to
`max(0, min(100, p))`, so the stored progress is always in `[0, 100]`;
the enhancement ticker advances by 10 capped at 90, and the generation
ticker takes `min(90, eased value)` — neither simulated animation ever
exceeds 90. -/
theorem progress_clamped_and_tickers_capped :
    (∀ (s : MemoryState) (p : ℚ),
        (setProgress s p).progress = max 0 (min 100 p) ∧
        0 ≤ (setProgress s p).progress ∧ (setProgress s p).progress ≤ 100) ∧
    (∀ prev : ℚ, enhanceTick prev ≤ 90) ∧
    (∀ elapsed : ℚ, genTick elapsed ≤ 90) := by
  refine ⟨fun s p => ⟨rfl, le_max_left 0 _, ?_⟩,
    fun prev => min_le_right _ _, fun elapsed => min_le_left _ _⟩
  exact max_le (by norm_num) (le_trans (min_le_left _ _) (by norm_num))

/-- C8: `resetWorkflow` returns the workflow to the initial state —
step `upload`, all media references `null`, empty note and prompt,
progress 0, no error — while preserving `apiKey`, and revokes exactly
the `blob:` URLs held in `originalImageUrl` and `videoUrl`. -/
theorem resetWorkflow_resets_preserving_apiKey (s : MemoryState) :
    (resetWorkflow s).1.currentStep = .upload ∧
    (resetWorkflow s).1.originalImage = none ∧
    (resetWorkflow s).1.originalImageUrl = none ∧
    (resetWorkflow s).1.originalImageDataUrl = none ∧
    (resetWorkflow s).1.enhancedImageUrl = none ∧
    (resetWorkflow s).1.enhancedImageCaption = none ∧
    (resetWorkflow s).1.videoUrl = none ∧
    (resetWorkflow s).1.userNote = "" ∧
    (resetWorkflow s).1.motionPrompt = "" ∧
    (resetWorkflow s).1.progress = 0 ∧
    (resetWorkflow s).1.error = none ∧
    (resetWorkflow s).1.apiKey = s.apiKey ∧
    ∀ u : String, u ∈ (resetWorkflow s).2 ↔
      ((s.originalImageUrl = some u ∨ s.videoUrl = some u) ∧
        u.startsWith "blob:" = true) := by
  refine ⟨rfl, rfl, rfl, rfl, rfl, rfl, rfl, rfl, rfl, rfl, rfl, rfl, fun u => ?_⟩
  show u ∈ blobRevocations s ↔ _
  unfold blobRevocations
  rw [List.mem_append, optRevocation_mem, optRevocation_mem]
  constructor
  · rintro (⟨h, hs⟩ | ⟨h, hs⟩)
    · exact ⟨Or.inl h, hs⟩
    · exact ⟨Or.inr h, hs⟩
  · rintro ⟨h | h, hs⟩
    · exact Or.inl ⟨h, hs⟩
    · exact Or.inr ⟨h, hs⟩

/-- C10: `setOriginalImage(file, url)` is a single state update that
stores the new image (both display and data URL) and clears every
downstream artifact — enhanced image, caption, video, prompts, error —
moving to the `enhance` step, while leaving unrelated fields
(`apiKey`, `progress`, `isProcessing`) untouched. -/
theorem setOriginalImage_clears_downstream (s : MemoryState) (f : FileDesc)
    (url : String) :
    (setOriginalImage s f url).originalImage = some f ∧
    (setOriginalImage s f url).originalImageUrl = some url ∧
    (setOriginalImage s f url).originalImageDataUrl = some url ∧
    (setOriginalImage s f url).enhancedImageUrl = none ∧
    (setOriginalImage s f url).enhancedImageCaption = none ∧
    (setOriginalImage s f url).videoUrl = none ∧
    (setOriginalImage s f url).motionPrompt = "" ∧
    (setOriginalImage s f url).userNote = "" ∧
    (setOriginalImage s f url).error = none ∧
    (setOriginalImage s f url).currentStep = .enhance ∧
    (setOriginalImage s f url).apiKey = s.apiKey ∧
    (setOriginalImage s f url).progress = s.progress ∧
    (setOriginalImage s f url).isProcessing = s.isProcessing :=
  ⟨rfl, rfl, rfl, rfl, rfl, rfl, rfl, rfl, rfl, rfl, rfl, rfl, rfl⟩

/-- C6 counterexample: in a state holding only a non-empty motion
prompt — no original image, no enhanced image, no video —
`canProceedToStep('generate')` returns `true`, so `generate` does not
require a non-empty image as the claim states (the source gates
`generate` on `!!state.motionPrompt`). -/
theorem canProceed_generate_without_image :
    canProceedToStep promptOnlyState .generate = true ∧
    promptOnlyState.originalImage = none ∧
    promptOnlyState.originalImageUrl = none ∧
    promptOnlyState.originalImageDataUrl = none ∧
    promptOnlyState.enhancedImageUrl = none ∧
    promptOnlyState.videoUrl = none := by
  refine ⟨by decide, rfl, rfl, rfl, rfl, rfl⟩

/-- C6 (amended): `canProceedToStep` gates each step on exactly:
`upload` always; `enhance` a stored original image; `generate` a
non-empty motion prompt (not the image); `complete` a non-empty video
handle; (and `prompt` a non-empty enhanced image). -/
theorem canProceedToStep_characterization (s : MemoryState) :
    canProceedToStep s .upload = true ∧
    (canProceedToStep s .enhance = true ↔ s.originalImage ≠ none) ∧
    (canProceedToStep s .prompt = true ↔ ∃ u, s.enhancedImageUrl = some u ∧ u ≠ "") ∧
    (canProceedToStep s .generate = true ↔ s.motionPrompt ≠ "") ∧
    (canProceedToStep s .complete = true ↔ ∃ v, s.videoUrl = some v ∧ v ≠ "") := by
  refine ⟨rfl, ?_, ?_, ?_, ?_⟩
  · show s.originalImage.isSome = true ↔ _
    exact Option.isSome_iff_ne_none
  · show jsTruthyOpt s.enhancedImageUrl = true ↔ _
    rcases s.enhancedImageUrl with _ | u <;> simp [jsTruthyOpt, isEmptyFalseIff]
  · show (!s.motionPrompt.isEmpty) = true ↔ _
    simp [isEmptyFalseIff]
  · show jsTruthyOpt s.videoUrl = true ↔ _
    rcases s.videoUrl with _ | v <;> simp [jsTruthyOpt, isEmptyFalseIff]

/-- C5: files with a disallowed MIME type or size over 10 MB fail
validation with a descriptive error and `handleFile` leaves the store
untouched; files with an allowed type and size at most 10 MB pass
validation. -/
theorem upload_validation_gates_store (f : FileDesc) :
    (f.type ∉ (["image/jpeg", "image/png", "image/webp"] : List String) ∨
        f.size > 10 * 1024 * 1024 →
      (validateImageFile f).isValid = false ∧
      (validateImageFile f).error ≠ none ∧
      ∀ (store : MemoryState) (proc : Except String String),
        (handleFile store f proc).1 = store) ∧
    (f.type ∈ (["image/jpeg", "image/png", "image/webp"] : List String) ∧
        f.size ≤ 10 * 1024 * 1024 →
      (validateImageFile f).isValid = true) := by
  constructor
  · intro h
    have hc : supportedTypes.contains f.type = false ∨ f.size > maxFileSize := by
      rcases h with h | h
      · left
        rw [Bool.eq_false_iff]
        intro hx
        exact h (List.elem_iff.mp hx)
      · right
        exact h
    have hv : (validateImageFile f).isValid = false ∧ (validateImageFile f).error ≠ none := by
      unfold validateImageFile
      rcases hc with hc | hc
      · rw [if_pos (by rw [hc]; rfl)]
        exact ⟨rfl, by simp⟩
      · by_cases hm : supportedTypes.contains f.type = true
        · rw [if_neg (by rw [hm]; simp), if_pos hc]
          exact ⟨rfl, by simp⟩
        · rw [if_pos (by rw [Bool.eq_false_iff.mpr hm]; rfl)]
          exact ⟨rfl, by simp⟩
    refine ⟨hv.1, hv.2, ?_⟩
    intro store proc
    simp only [handleFile]
    rw [hv.1]
    rfl
  · rintro ⟨ht, hs⟩
    have hc : supportedTypes.contains f.type = true := List.elem_iff.mpr ht
    unfold validateImageFile
    rw [if_neg (by rw [hc]; simp),
      if_neg (show ¬f.size > maxFileSize from not_lt.mpr hs)]

/-- C5 witness: a 5-byte GIF fails validation and leaves the store
unchanged; a small JPEG passes. -/
theorem upload_validation_gates_store_witness :
    (validateImageFile ⟨"image/gif", 5⟩).isValid = false ∧
    (handleFile initialState ⟨"image/gif", 5⟩ (.ok "data:u")).1 = initialState ∧
    (validateImageFile ⟨"image/jpeg", 5⟩).isValid = true := by
  have h1 := (upload_validation_gates_store ⟨"image/gif", 5⟩).1 (Or.inl (by decide))
  have h2 := (upload_validation_gates_store ⟨"image/jpeg", 5⟩).2 ⟨by decide, by decide⟩
  exact ⟨h1.1, h1.2.2 initialState (.ok "data:u"), h2⟩

theorem foldl_processPart_no_inline (parts : List CandidatePart)
    (h : ∀ p ∈ parts, p.inlineData = none) (acc : List String × String) :
    (parts.foldl processPart acc).1 = acc.1 := by
  induction parts generalizing acc with
  | nil => rfl
  | cons p ps ih =>
      rw [List.foldl_cons, ih (fun q hq => h q (List.mem_cons_of_mem p hq))]
      simp only [processPart, h p (List.mem_cons_self p ps)]

theorem foldl_processPart_no_text (parts : List CandidatePart)
    (h : ∀ p ∈ parts, p.text = none) (acc : List String × String) :
    (parts.foldl processPart acc).2 = acc.2 := by
  induction parts generalizing acc with
  | nil => rfl
  | cons p ps ih =>
      rw [List.foldl_cons, ih (fun q hq => h q (List.mem_cons_of_mem p hq))]
      simp only [processPart, h p (List.mem_cons_self p ps)]

/-- C4: when the Gemini enhancement response contains no inline image
part, `enhanceImage` returns successfully with the original input
image (as a data URL from the input base64 and MIME type) as the only
enhanced image, and — when the response also carried no text — the
generic caption `Image processed successfully`. -/
theorem enhanceImage_no_image_payload (base64Image mimeType : String)
    (parts : List CandidatePart) (hno : ∀ p ∈ parts, p.inlineData = none) :
    ∃ caption,
      enhanceImage base64Image mimeType (.ok parts) =
        .ok { images := ["data:" ++ mimeType ++ ";base64," ++ base64Image],
              caption := caption } ∧
      ((∀ p ∈ parts, p.text = none) → caption = "Image processed successfully") := by
  have himg : (parts.foldl processPart ([], "")).1 = [] :=
    foldl_processPart_no_inline parts hno ([], "")
  refine ⟨jsTrim (if (parts.foldl processPart ([], "")).2.isEmpty then
      "Image processed successfully" else (parts.foldl processPart ([], "")).2),
    ?_, ?_⟩
  · show Except.ok (processEnhanceResponse base64Image mimeType parts) = _
    simp only [processEnhanceResponse]
    rw [himg]
    rfl
  · intro htext
    have hcap : (parts.foldl processPart ([], "")).2 = "" :=
      foldl_processPart_no_text parts htext ([], "")
    rw [hcap]
    decide

/-- C4 witness: an empty response part list yields the original image
back with the generic caption. -/
theorem enhanceImage_no_image_payload_witness :
    ∃ caption,
      enhanceImage "abc" "image/png" (.ok []) =
        .ok { images := ["data:image/png;base64,abc"], caption := caption } ∧
      ((∀ p ∈ ([] : List CandidatePart), p.text = none) →
        caption = "Image processed successfully") :=
  enhanceImage_no_image_payload "abc" "image/png" [] (by simp)

theorem enhFinish_events (url : Option String) (caption : String)
    (evs : List EnhEvent) : (enhFinish url caption evs).2 = evs := by
  unfold enhFinish
  rcases url with _ | u
  · rfl
  · by_cases hu : u.isEmpty <;> simp [hu]

theorem enhGeminiPath_events (g : Except String GeminiImageResponse)
    (evs : List EnhEvent) : (enhGeminiPath g evs).2 = evs := by
  unfold enhGeminiPath
  rcases g with m | r
  · rfl
  · exact enhFinish_events _ _ _

/-- C3: in the Enhance step, when a Replicate token is present and the
Replicate enhancement call throws, the Gemini enhancement call is
attempted before the step is failed (the run's provider-call trace is
exactly Replicate then Gemini); with no token, Gemini is called
directly. -/
theorem enhancement_replicate_then_gemini_fallback (orig : Option String)
    (env : EnhEnv) (h : jsTruthyOpt orig = true) :
    (∀ e, jsTruthyOpt env.replicateToken = true → env.replicateResult = .error e →
        (startEnhancement orig env).2 = [.replicateCall, .geminiCall]) ∧
    (jsTruthyOpt env.replicateToken = false →
        (startEnhancement orig env).2 = [.geminiCall]) := by
  constructor
  · intro e htok hrep
    unfold startEnhancement
    rw [h, htok, hrep]
    show (enhGeminiPath env.geminiResult [.replicateCall, .geminiCall]).2 = _
    exact enhGeminiPath_events _ _
  · intro htok
    unfold startEnhancement
    rw [h, htok]
    show (enhGeminiPath env.geminiResult [.geminiCall]).2 = _
    exact enhGeminiPath_events _ _

/-- C3 witness: with a token and a failing Replicate call the trace is
Replicate then Gemini; without a token it is Gemini alone. -/
theorem enhancement_replicate_then_gemini_fallback_witness :
    (startEnhancement (some "data:image/jpeg;base64,q") enhEnvA).2 =
      [EnhEvent.replicateCall, EnhEvent.geminiCall] ∧
    (startEnhancement (some "data:image/jpeg;base64,q") enhEnvB).2 =
      [EnhEvent.geminiCall] :=
  ⟨(enhancement_replicate_then_gemini_fallback _ enhEnvA (by decide)).1
      "Replicate API error: 500" (by decide) rfl,
   (enhancement_replicate_then_gemini_fallback _ enhEnvB (by decide)).2 (by decide)⟩

theorem replicate_request_shape (token : Option String)
    (htok : jsTruthyOpt token = true) (o : ReplicateOutcome) (p : String)
    (img : Option String) :
    ∃ r req, generateVideoWithReplicate token o p img 5 "480p" "16:9" =
        (r, some req) ∧
      req.prompt = p ∧ req.duration = 5 ∧ req.resolution = "480p" ∧
      req.aspect_ratio = "16:9" := by
  unfold generateVideoWithReplicate
  rw [if_neg (by rw [htok]; simp)]
  rcases o with m | ⟨status, text⟩ | out
  · exact ⟨_, _, rfl, rfl, rfl, rfl, rfl⟩
  · exact ⟨_, _, rfl, rfl, rfl, rfl, rfl⟩
  · rcases out with _ | u
    · exact ⟨_, _, rfl, rfl, rfl, rfl, rfl⟩
    · exact ⟨_, _, rfl, rfl, rfl, rfl, rfl⟩

theorem promptPhase_events (st : GenState) (env : GenEnv) :
    (promptPhase st env).2 = [] ∨
    ∃ i n, (promptPhase st env).2 = [GenEvent.promptCall i n] := by
  unfold promptPhase
  split
  · split <;> split
    all_goals right; exact ⟨_, _, rfl⟩
  · left; rfl

theorem promptPhase_no_veoCall (st : GenState) (env : GenEnv) (img p : String) :
    GenEvent.veoCall img p ∉ (promptPhase st env).2 := by
  rcases promptPhase_events st env with h | ⟨i, n, h⟩ <;> rw [h] <;> simp

theorem promptPhase_no_replicateCall (st : GenState) (env : GenEnv)
    (req : ReplicateRequest) :
    GenEvent.replicateCall req ∉ (promptPhase st env).2 := by
  rcases promptPhase_events st env with h | ⟨i, n, h⟩ <;> rw [h] <;> simp

theorem genCatch_shape (st : GenState) (env : GenEnv) (evs : List GenEvent)
    (p m : String) :
    (genCatch st env evs p m).2 = evs ∨
    ∃ req, (genCatch st env evs p m).2 = evs ++ [GenEvent.replicateCall req] ∧
      req.prompt = p ∧ req.duration = 5 ∧ req.resolution = "480p" ∧
      req.aspect_ratio = "16:9" := by
  unfold genCatch
  split
  case isTrue hcond =>
    have htok : jsTruthyOpt env.tokenAtCatch = true :=
      (Bool.and_eq_true _ _ |>.mp hcond).1
    obtain ⟨r, req, hg, hp, hd, hres, ha⟩ :=
      replicate_request_shape env.tokenAtCatch htok env.replicateFallback p
        st.enhancedImageUrl
    rw [hg]
    right
    refine ⟨req, ?_, hp, hd, hres, ha⟩
    rcases r with m2 | url <;> rfl
  case isFalse hcond => left; rfl

theorem startGeneration_token_eq (st : GenState) (env : GenEnv)
    (h1 : jsTruthyOpt env.tokenAtStart = true)
    (himg : jsTruthyOpt st.enhancedImageUrl = true) :
    startGeneration st env =
      videoPhaseReplicate st env (promptPhase st env).1 (promptPhase st env).2 := by
  unfold startGeneration
  rw [if_neg (by rw [himg]; simp), if_pos h1]

theorem startGeneration_veo_eq (st : GenState) (env : GenEnv)
    (h1 : jsTruthyOpt env.tokenAtStart = false)
    (himg : jsTruthyOpt st.enhancedImageUrl = true) :
    startGeneration st env =
      videoPhaseVeo st env (st.enhancedImageUrl.getD "") (promptPhase st env).1
        (promptPhase st env).2 := by
  unfold startGeneration
  rw [if_neg (by rw [himg]; simp), if_neg (by rw [h1]; simp)]

theorem videoPhaseReplicate_trace (st : GenState) (env : GenEnv)
    (htok : jsTruthyOpt env.tokenAtStart = true)
    (prompt : String) (evs : List GenEvent) :
    ∃ req, req.prompt = prompt ∧ req.duration = 5 ∧
      req.resolution = "480p" ∧ req.aspect_ratio = "16:9" ∧
      ((videoPhaseReplicate st env prompt evs).2 =
          evs ++ [.replicateCall req] ∨
       ∃ req2, req2.duration = 5 ∧ req2.resolution = "480p" ∧
         req2.aspect_ratio = "16:9" ∧
         (videoPhaseReplicate st env prompt evs).2 =
           evs ++ [.replicateCall req, .replicateCall req2]) := by
  obtain ⟨r, req, hg, hp, hd, hres, ha⟩ :=
    replicate_request_shape env.tokenAtStart htok env.replicateFirst prompt
      st.enhancedImageUrl
  refine ⟨req, hp, hd, hres, ha, ?_⟩
  unfold videoPhaseReplicate
  rw [hg]
  rcases r with m | url
  · rcases genCatch_shape st env (evs ++ [.replicateCall req]) prompt m
        with hc | ⟨req2, hc, _, hd2, hres2, ha2⟩
    · left
      exact hc
    · right
      refine ⟨req2, hd2, hres2, ha2, ?_⟩
      show (genCatch st env (evs ++ [GenEvent.replicateCall req]) prompt m).2 = _
      rw [hc, List.append_assoc]
      rfl
  · left
    rfl

/-- C1: in a `startGeneration` run with the Replicate token present in
local storage and an enhanced image available, the orchestrator calls
Replicate (at least once) and never invokes VEO, and every Replicate
request carries duration 5, resolution `480p` and aspect ratio
`16:9`. -/
theorem generation_with_replicate_token_skips_veo (st : GenState) (env : GenEnv)
    (h1 : jsTruthyOpt env.tokenAtStart = true)
    (himg : jsTruthyOpt st.enhancedImageUrl = true) :
    (∀ img p, GenEvent.veoCall img p ∉ (startGeneration st env).2) ∧
    (∃ req, GenEvent.replicateCall req ∈ (startGeneration st env).2) ∧
    (∀ req, GenEvent.replicateCall req ∈ (startGeneration st env).2 →
        req.duration = 5 ∧ req.resolution = "480p" ∧
        req.aspect_ratio = "16:9") := by
  rw [startGeneration_token_eq st env h1 himg]
  obtain ⟨req, hp, hd, hres, ha, htr | ⟨req2, hd2, hres2, ha2, htr⟩⟩ :=
    videoPhaseReplicate_trace st env h1 (promptPhase st env).1 (promptPhase st env).2
  · rw [htr]
    refine ⟨?_, ⟨req, ?_⟩, ?_⟩
    · intro img p hmem
      rcases List.mem_append.mp hmem with hmem | hmem
      · exact promptPhase_no_veoCall st env img p hmem
      · simp at hmem
    · simp
    · intro rq hmem
      rcases List.mem_append.mp hmem with hmem | hmem
      · exact absurd hmem (promptPhase_no_replicateCall st env rq)
      · have hrq : rq = req := by simpa using hmem
        subst hrq
        exact ⟨hd, hres, ha⟩
  · rw [htr]
    refine ⟨?_, ⟨req, ?_⟩, ?_⟩
    · intro img p hmem
      rcases List.mem_append.mp hmem with hmem | hmem
      · exact promptPhase_no_veoCall st env img p hmem
      · simp at hmem
    · simp
    · intro rq hmem
      rcases List.mem_append.mp hmem with hmem | hmem
      · exact absurd hmem (promptPhase_no_replicateCall st env rq)
      · rcases (by simpa using hmem : rq = req ∨ rq = req2) with hrq | hrq
        · subst hrq
          exact ⟨hd, hres, ha⟩
        · subst hrq
          exact ⟨hd2, hres2, ha2⟩

/-- C1 witness: the token-present environment at a concrete state. -/
theorem generation_with_replicate_token_skips_veo_witness :
    (∀ img p, GenEvent.veoCall img p ∉ (startGeneration genStateW genEnvToken).2) ∧
    (∃ req, GenEvent.replicateCall req ∈ (startGeneration genStateW genEnvToken).2) ∧
    (∀ req, GenEvent.replicateCall req ∈ (startGeneration genStateW genEnvToken).2 →
        req.duration = 5 ∧ req.resolution = "480p" ∧
        req.aspect_ratio = "16:9") :=
  generation_with_replicate_token_skips_veo genStateW genEnvToken (by decide) (by decide)

theorem promptPhase_fallback (st : GenState) (env : GenEnv)
    (htrim : (jsTrim st.motionPrompt).isEmpty = true)
    (e : String) (hpr : env.promptResult = .error e) :
    promptPhase st env = (fallbackPrompt,
      [GenEvent.promptCall (st.enhancedImageUrl.getD "")
        (if st.userNote.isEmpty then none else some st.userNote)]) := by
  unfold promptPhase
  rw [if_pos (show (st.motionPrompt.isEmpty || (jsTrim st.motionPrompt).isEmpty) = true
      by rw [htrim]; simp), hpr]

/-- C9: in a `startGeneration` run where no motion prompt exists yet
(trim-empty) and the Gemini prompt request throws, the fixed fallback
sentence is substituted and the video phase still runs: with a
Replicate token the Replicate request carries the fallback prompt, and
without one (but with a VEO key) the VEO call carries it. -/
theorem generation_prompt_fallback (st : GenState) (env : GenEnv) (e : String)
    (himg : jsTruthyOpt st.enhancedImageUrl = true)
    (htrim : (jsTrim st.motionPrompt).isEmpty = true)
    (hpr : env.promptResult = .error e) :
    (jsTruthyOpt env.tokenAtStart = true →
        ∃ req, GenEvent.replicateCall req ∈ (startGeneration st env).2 ∧
          req.prompt = fallbackPrompt) ∧
    (jsTruthyOpt env.tokenAtStart = false →
      jsTruthyOpt (jsOrOpt env.veoApiKey env.geminiApiKey) = true →
        GenEvent.veoCall (st.enhancedImageUrl.getD "") fallbackPrompt ∈
          (startGeneration st env).2) := by
  have hpp := promptPhase_fallback st env htrim e hpr
  constructor
  · intro h1
    rw [startGeneration_token_eq st env h1 himg]
    obtain ⟨req, hp, hd, hres, ha, htr | ⟨req2, hd2, hres2, ha2, htr⟩⟩ :=
      videoPhaseReplicate_trace st env h1 (promptPhase st env).1 (promptPhase st env).2
    · refine ⟨req, ?_, by rw [hp, hpp]⟩
      rw [htr]
      simp
    · refine ⟨req, ?_, by rw [hp, hpp]⟩
      rw [htr]
      simp
  · intro h1 hkey
    rw [startGeneration_veo_eq st env h1 himg]
    unfold videoPhaseVeo
    rw [if_neg (by rw [hkey]; simp)]
    have hfb : (promptPhase st env).1 = fallbackPrompt := by rw [hpp]
    rcases hveo : env.veoResult with m | url
    · rcases genCatch_shape st env ((promptPhase st env).2 ++
          [.veoCall (st.enhancedImageUrl.getD "") (promptPhase st env).1])
          (promptPhase st env).1 m with hc | ⟨req2, hc, _, _, _, _⟩
      · rw [hc, hfb]
        simp
      · rw [hc, hfb]
        simp
    · rw [hfb]
      simp

/-- C9 witness: empty motion prompt, failing prompt call, Replicate
token present — the Replicate request carries the fallback sentence. -/
theorem generation_prompt_fallback_witness :
    ∃ req, GenEvent.replicateCall req ∈
        (startGeneration genStateNoPrompt genEnvPromptFail).2 ∧
      req.prompt = fallbackPrompt :=
  (generation_prompt_fallback genStateNoPrompt genEnvPromptFail "ApiError: 400"
    (by decide) (by decide) rfl).1 (by decide)

